import Mathlib

/-
Verification of the overlay layout engine of the video text-overlay tool
(`app.py`).  The engine's arithmetic is embedded shallowly:

* Python `int` becomes `Int`; Python `int((a - b) / 2)` (true division then
  truncation toward zero) becomes `Int.tdiv _ 2`.
* Python `float` positions and opacities become `ℚ` (exact arithmetic; the
  source only ever combines integer-valued data with exact literals such as
  `0.05`, modelled as `1/20`).
* External collaborators (MoviePy clips, the filesystem, Whisper) are
  parameters of the embedded functions: measured clip sizes arrive as `Int`
  arguments, `os.path.exists` as a `String → Bool` oracle, and fallible
  library calls as `Except` values.
-/

namespace Cubbon

/-- Embeds `_y_for_position` from `app.py`: vertical coordinate for a
placement string; `top` is flush at the margin, `bottom` flush above the
bottom margin, everything else vertically centered (never above the margin). -/
def yForPosition (positionSel : String) (videoH textH margin : Int) : Int :=
  if positionSel = "top" then margin
  else if positionSel = "bottom" then max margin (videoH - textH - margin)
  else max margin ((videoH - textH).tdiv 2)

/-- Embeds `_target_xy` from `app.py`: resolved target position of the text
block for a placement string.  `Int.tdiv` mirrors Python's
`int((a - b) / 2)`, which truncates toward zero. -/
def targetXY (positionSel : String) (videoW videoH textW textH margin : Int) :
    Int × Int :=
  if positionSel = "bottom" then
    (max margin ((videoW - textW).tdiv 2), max margin (videoH - textH - margin))
  else if positionSel = "top" then
    (max margin ((videoW - textW).tdiv 2), margin)
  else if positionSel = "left" then
    (margin, max margin ((videoH - textH).tdiv 2))
  else if positionSel = "right" then
    (max margin (videoW - textW - margin), max margin ((videoH - textH).tdiv 2))
  else
    (max margin ((videoW - textW).tdiv 2), max margin ((videoH - textH).tdiv 2))

/-- Embeds `_slide_in_position_fn` from `app.py`: the requested duration is
floored at `0.05 = 1/20`; before `t = 0` the function returns the start
point, from the floored duration on it returns the target, and in between it
interpolates linearly. -/
def slideInPositionFn (startX startY targetX targetY : Int) (animDurationReq : ℚ) :
    ℚ → ℚ × ℚ :=
  let animDuration : ℚ := max (1/20) animDurationReq
  fun t =>
    if t ≤ 0 then ((startX : ℚ), (startY : ℚ))
    else if animDuration ≤ t then ((targetX : ℚ), (targetY : ℚ))
    else
      let p := t / animDuration
      ((startX : ℚ) + ((targetX : ℚ) - (startX : ℚ)) * p,
       (startY : ℚ) + ((targetY : ℚ) - (startY : ℚ)) * p)

/-- Embeds the animation start-point selection of `process_video_clip`
(the `animate_in` branch, identical in caption and manual mode): the start
keeps the target's cross-axis coordinate and places the layer at the chosen
edge with `edge = 1` pixel still reaching into the frame; any string other
than `top`/`left`/`right` falls through to the `bottom` behaviour. -/
def animStartXY (animateFrom : String) (targetX targetY clipW clipH measureW measureH : Int) :
    Int × Int :=
  let edge : Int := 1
  if animateFrom = "top" then (targetX, -measureH + edge)
  else if animateFrom = "left" then (-measureW + edge, targetY)
  else if animateFrom = "right" then (clipW - edge, targetY)
  else (targetX, clipH - edge)

/-- Embeds `clamp_xy` (nested in `_make_styled_layers`): layer and base
dimensions are coerced to at least 1, then the point is clamped into
`[-cw + edge, bw - edge] × [-ch + edge, bh - edge]`. -/
def clamp_xy (baseW baseH : Int) (x y : ℚ) (clipW clipH edge : Int) : ℚ × ℚ :=
  let cw := max 1 clipW
  let ch := max 1 clipH
  let bw := max 1 baseW
  let bh := max 1 baseH
  let minX : Int := -cw + edge
  let maxX : Int := bw - edge
  let minY : Int := -ch + edge
  let maxY : Int := bh - edge
  (min (max x (minX : ℚ)) (maxX : ℚ), min (max y (minY : ℚ)) (maxY : ℚ))

/-- Length of the overlap, along one axis, between a layer of size `size`
placed at coordinate `pos` and the frame interval `[0, frameLen)`. -/
def overlapLen (pos : ℚ) (size frameLen : Int) : ℚ :=
  max 0 (min (pos + (size : ℚ)) (frameLen : ℚ) - max pos 0)

/-- Area of the overlap between a `w × h` layer placed at `(x, y)` and the
`bw × bh` base frame; zero exactly when the layer is fully off-screen. -/
def overlapArea (x y : ℚ) (w h bw bh : Int) : ℚ :=
  overlapLen x w bw * overlapLen y h bh

/-- Kind tag distinguishing the three layer sorts built by
`_make_styled_layers`. -/
inductive LayerKind where
  | box
  | shadow
  | text
deriving DecidableEq, Repr, Inhabited

/-- One composited layer: its kind, its size as reported by the clip object,
its (already clamped) position function of elapsed time, and its timing. -/
structure OverlayLayer where
  kind : LayerKind
  w : Int
  h : Int
  posFn : ℚ → ℚ × ℚ
  layerStart : ℚ
  dur : ℚ
deriving Inhabited

/-- Embeds `_make_styled_layers` from `app.py`.  `baseW`/`baseH` are the base
clip's size (closed over by `clamp_xy` in the source); `txtW`/`txtH` and
`shadowW`/`shadowH` are the sizes MoviePy reports for the main and shadow
`TextClip` objects (external measurements, hence parameters).  The duration is
floored at `0.05`; the box, when enabled with positive opacity, is padded by
`max 0 boxPadding` on each side; each layer clamps the shared position
function with its own offset via `clamp_xy` (edge 1). -/
def makeStyledLayers (baseW baseH txtW txtH shadowW shadowH : Int)
    (posFn : ℚ → ℚ × ℚ) (layerStart durationReq : ℚ)
    (shadowEnabled : Bool) (shadowOpacity : ℚ) (shadowDx shadowDy : Int)
    (boxEnabled : Bool) (boxOpacity : ℚ) (boxPadding : Int) : List OverlayLayer :=
  let duration := max (1/20 : ℚ) durationReq
  let pad : Int := max 0 boxPadding
  let boxW : Int := max 1 (txtW + pad * 2)
  let boxH : Int := max 1 (txtH + pad * 2)
  let boxLayers : List OverlayLayer :=
    if boxEnabled && decide (0 < boxOpacity) then
      [{ kind := LayerKind.box, w := boxW, h := boxH,
         posFn := fun t =>
           clamp_xy baseW baseH ((posFn t).1 - (pad : ℚ)) ((posFn t).2 - (pad : ℚ)) boxW boxH 1,
         layerStart := layerStart, dur := duration }]
    else []
  let shadowLayers : List OverlayLayer :=
    if shadowEnabled && decide (0 < shadowOpacity) then
      [{ kind := LayerKind.shadow, w := shadowW, h := shadowH,
         posFn := fun t =>
           clamp_xy baseW baseH ((posFn t).1 + (shadowDx : ℚ)) ((posFn t).2 + (shadowDy : ℚ))
             shadowW shadowH 1,
         layerStart := layerStart, dur := duration }]
    else []
  let textLayer : OverlayLayer :=
    { kind := LayerKind.text, w := txtW, h := txtH,
      posFn := fun t => clamp_xy baseW baseH (posFn t).1 (posFn t).2 txtW txtH 1,
      layerStart := layerStart, dur := duration }
  boxLayers ++ shadowLayers ++ [textLayer]

/-- The per-family filename table of `_resolve_font_style` (`variants`). -/
structure FontVariants where
  regular : String
  bold : String
  italic : String
  boldItalic : String
deriving DecidableEq, Repr

/-- Embeds the `variants` dictionary lookup `variants.get(font_key,
variants["Arial"])`: unknown families fall back to the Arial row. -/
def variantsFor (fontKey : String) : FontVariants :=
  if fontKey = "Arial" then ⟨"arial.ttf", "arialbd.ttf", "ariali.ttf", "arialbi.ttf"⟩
  else if fontKey = "Helvetica" then ⟨"arial.ttf", "arialbd.ttf", "ariali.ttf", "arialbi.ttf"⟩
  else if fontKey = "Courier" then ⟨"cour.ttf", "courbd.ttf", "couri.ttf", "courbi.ttf"⟩
  else if fontKey = "Times New Roman" then ⟨"times.ttf", "timesbd.ttf", "timesi.ttf", "timesbi.ttf"⟩
  else if fontKey = "Georgia" then ⟨"georgia.ttf", "georgiab.ttf", "georgiai.ttf", "georgiaz.ttf"⟩
  else if fontKey = "Verdana" then ⟨"verdana.ttf", "verdanab.ttf", "verdanai.ttf", "verdanaz.ttf"⟩
  else if fontKey = "Impact" then ⟨"impact.ttf", "impact.ttf", "impact.ttf", "impact.ttf"⟩
  else ⟨"arial.ttf", "arialbd.ttf", "ariali.ttf", "arialbi.ttf"⟩

/-- Variant selection of `_resolve_font_style`; every table entry is a
non-empty string, so the source's `or chosen["regular"]` fallback on a falsy
dictionary value is dead and the lookup is a plain field access. -/
def fontFilenameFor (v : FontVariants) (bold italic : Bool) : String :=
  if bold && italic then v.boldItalic
  else if bold then v.bold
  else if italic then v.italic
  else v.regular

/-- The `desired` list of bundled-font filenames tried, in order, for the
non-Windows branch of `_resolve_font_style`; the Windows-style filename for
the family is always appended last. -/
def desiredBundledNames (fontKey : String) (bold italic : Bool) (fontFilename : String) :
    List String :=
  (if fontKey = "Arial" ∨ fontKey = "Helvetica" then
    if bold && italic then ["arialbi.ttf", "Arial Bold Italic.ttf", "Arial-BoldItalic.ttf"]
    else if bold then ["arialbd.ttf", "Arial Bold.ttf", "Arial-Bold.ttf"]
    else if italic then ["ariali.ttf", "Arial Italic.ttf", "Arial-Italic.ttf"]
    else ["arial.ttf", "Arial.ttf"]
  else []) ++ [fontFilename]

/-- The DejaVu group of `linux_candidates`, chosen by font family. -/
def dejavuCandidates (fontKey : String) : List String :=
  if fontKey = "Arial" ∨ fontKey = "Helvetica" ∨ fontKey = "Verdana" ∨ fontKey = "Impact" then
    ["/usr/share/fonts/truetype/dejavu/DejaVuSans.ttf",
     "/usr/share/fonts/truetype/dejavu/DejaVuSans-Bold.ttf",
     "/usr/share/fonts/truetype/dejavu/DejaVuSans-Oblique.ttf",
     "/usr/share/fonts/truetype/dejavu/DejaVuSans-BoldOblique.ttf"]
  else if fontKey = "Courier" then
    ["/usr/share/fonts/truetype/dejavu/DejaVuSansMono.ttf",
     "/usr/share/fonts/truetype/dejavu/DejaVuSansMono-Bold.ttf",
     "/usr/share/fonts/truetype/dejavu/DejaVuSansMono-Oblique.ttf",
     "/usr/share/fonts/truetype/dejavu/DejaVuSansMono-BoldOblique.ttf"]
  else
    ["/usr/share/fonts/truetype/dejavu/DejaVuSerif.ttf",
     "/usr/share/fonts/truetype/dejavu/DejaVuSerif-Bold.ttf",
     "/usr/share/fonts/truetype/dejavu/DejaVuSerif-Italic.ttf",
     "/usr/share/fonts/truetype/dejavu/DejaVuSerif-BoldItalic.ttf"]

/-- The Liberation group appended to `linux_candidates`.  The source builds
the list through `add_if`, which skips duplicates; the DejaVu and Liberation
paths are pairwise distinct, so plain concatenation is equivalent. -/
def liberationCandidates : List String :=
  ["/usr/share/fonts/truetype/liberation/LiberationSans-Regular.ttf",
   "/usr/share/fonts/truetype/liberation/LiberationSans-Bold.ttf",
   "/usr/share/fonts/truetype/liberation/LiberationSans-Italic.ttf",
   "/usr/share/fonts/truetype/liberation/LiberationSans-BoldItalic.ttf",
   "/usr/share/fonts/truetype/liberation/LiberationSerif-Regular.ttf",
   "/usr/share/fonts/truetype/liberation/LiberationMono-Regular.ttf"]

/-- Embeds `_resolve_font_style` from `app.py`.  The filesystem is the oracle
`fsExists` (`os.path.exists`); `bundledFontsDirExists` is
`os.path.isdir(repo_dir + "/fonts")`; `isWindows` is `os.name == "nt"`.
A truthy (non-empty) custom font path is returned unconditionally.  On
Windows the mapped file under `C:\Windows\Fonts` is returned if it exists,
else the family's bare regular filename.  Otherwise the bundled `desired`
names (when the directory exists) and then the Linux candidates are scanned
in order — the source's early-return loops are the first match of `find?` —
with the empty string as last resort. -/
def resolveFontStyle (isWindows : Bool) (fsExists : String → Bool)
    (bundledFontsDirExists : Bool) (repoDir : String)
    (fontKey : String) (bold italic : Bool) (customFontPath : Option String) : String :=
  if (customFontPath.getD "") ≠ "" then customFontPath.getD ""
  else
    let chosen := variantsFor fontKey
    let fontFilename := fontFilenameFor chosen bold italic
    if isWindows then
      let fontPath := "C:\\Windows\\Fonts\\" ++ fontFilename
      if fsExists fontPath then fontPath else chosen.regular
    else
      let bundledDir := repoDir ++ "/fonts"
      let bundled : List String :=
        if bundledFontsDirExists then
          (desiredBundledNames fontKey bold italic fontFilename).map
            (fun n => bundledDir ++ "/" ++ n)
        else []
      match (bundled ++ (dejavuCandidates fontKey ++ liberationCandidates)).find? fsExists with
      | some c => c
      | none => ""

/-- A Python exception as seen by the two `except` clauses of
`process_video_clip`: `FileNotFoundError` is handled specially, every other
exception generically; both carry their `str(e)` message. -/
inductive PyExn where
  | fileNotFound (msg : String)
  | other (msg : String)
deriving DecidableEq, Repr

/-- The slice of a loaded `VideoFileClip` that `process_video_clip` inspects:
duration, frame size, and whether an audio track is present
(`clip.audio is None`). -/
structure ClipInfo where
  duration : ℚ
  w : Int
  h : Int
  hasAudio : Bool
deriving DecidableEq, Repr

/-- One Whisper transcription segment: start, end, text. -/
structure SegmentInfo where
  startTime : ℚ
  endTime : ℚ
  segText : String
deriving DecidableEq, Repr

/-- The external collaborators invoked by `process_video_clip`, each fallible
call modelled as an `Except` outcome and each measurement as a pure oracle:
`loadClip` is `VideoFileClip(input_path)`, `writeAudioFile` the audio
extraction, `transcribeSegments` the Whisper call, `measureText` the size
MoviePy reports for a measuring `TextClip`, `writeVideoFile` the final
`write_videofile`, and `ffmpegExePath` the `imageio_ffmpeg` lookup used only
to decorate a `FileNotFoundError` report. -/
structure RenderEnv where
  loadClip : Except PyExn ClipInfo
  writeAudioFile : Except PyExn Unit
  transcribeSegments : Except PyExn (List SegmentInfo)
  measureText : String → Int × Int
  writeVideoFile : Except PyExn Unit
  ffmpegExePath : Except PyExn String

/-- The message `process_video_clip` returns for a failure, following its two
`except` clauses: a `FileNotFoundError` is decorated with the ffmpeg
diagnostic (with `(unknown)` when even the ffmpeg lookup fails), any other
exception is returned as its bare string. -/
def renderFailureMessage (env : RenderEnv) : PyExn → String
  | PyExn.fileNotFound m =>
      let ffmpegExe := match env.ffmpegExePath with
        | Except.ok p => p
        | Except.error _ => "(unknown)"
      m ++ ".\n\nffmpeg was not found on PATH. This app uses the bundled ffmpeg at:\n"
        ++ ffmpegExe
        ++ "\n\nTry restarting `streamlit run app.py` after this fix, or install ffmpeg system-wide."
  | PyExn.other m => m

/-- The `try` body of `process_video_clip`: `Except.error` is a raised
exception, `Except.ok (b, msg)` a `return b, msg` statement.  The early
returns for a missing audio track (caption mode) and for falsy overlay text
(manual mode, `None` or `""`) are successes of the `try` body carrying
`False`.  Layer construction between the external calls is pure and embeds
via `targetXY` / `animStartXY` / `makeStyledLayers`; it cannot raise. -/
def processVideoClipBody (env : RenderEnv) (useCaptions : Bool)
    (overlayText : Option String) : Except PyExn (Bool × String) :=
  match env.loadClip with
  | Except.error e => Except.error e
  | Except.ok clip =>
    if useCaptions then
      if clip.hasAudio = false then
        Except.ok (false, "No audio track found to generate captions.")
      else
        match env.writeAudioFile with
        | Except.error e => Except.error e
        | Except.ok _ =>
          match env.transcribeSegments with
          | Except.error e => Except.error e
          | Except.ok _segs =>
            match env.writeVideoFile with
            | Except.error e => Except.error e
            | Except.ok _ => Except.ok (true, "")
    else
      if (overlayText.getD "") = "" then
        Except.ok (false, "Overlay text is empty.")
      else
        match env.writeVideoFile with
        | Except.error e => Except.error e
        | Except.ok _ => Except.ok (true, "")

/-- Embeds `process_video_clip`'s outermost `try`/`except`: a body success is
returned as is, a raised exception becomes `(False, message)`. -/
def processVideoClip (env : RenderEnv) (useCaptions : Bool)
    (overlayText : Option String) : Bool × String :=
  match processVideoClipBody env useCaptions overlayText with
  | Except.ok r => r
  | Except.error e => (false, renderFailureMessage env e)

/-- A concrete builder invocation used to evaluate the layer-clamping
invariant: a 100×50 base frame, 10×5 text and shadow clips, box and shadow
both enabled with positive opacity, padding 4, and a constant position
function pointing far outside the frame. -/
def witnessLayers : List OverlayLayer :=
  makeStyledLayers 100 50 10 5 10 5 (fun _ => ((200 : ℚ), (-300 : ℚ))) 0 1
    true 1 2 2 true 1 4

/-- The first layer (the background box) of `witnessLayers`. -/
def witnessLayer0 : OverlayLayer := witnessLayers.get ⟨0, by decide⟩

lemma clamp1D_mem (x lo hi : ℚ) (h : lo ≤ hi) :
    lo ≤ min (max x lo) hi ∧ min (max x lo) hi ≤ hi :=
  ⟨le_min (le_max_right x lo) h, min_le_right _ _⟩

lemma clamp1D_id (x lo hi : ℚ) (h1 : lo ≤ x) (h2 : x ≤ hi) :
    min (max x lo) hi = x := by
  rw [max_eq_left h1, min_eq_left h2]

/-- C2: for every frame size, text size and margin, `_target_xy` resolves each
of the five placements to exactly the per-placement formula (centered axes use
`max margin ((dim - size).tdiv 2)`, the truncating division of Python's
`int((dim - size) / 2)`; constrained axes use `max margin (dim - size - margin)`
or the bare margin); in particular a 400×100 block placed at the bottom of a
1920×1080 frame with margin 24 resolves to (760, 956). -/
theorem target_xy_per_placement (w h tw th m : Int) :
    targetXY "bottom" w h tw th m = (max m ((w - tw).tdiv 2), max m (h - th - m)) ∧
    targetXY "top" w h tw th m = (max m ((w - tw).tdiv 2), m) ∧
    targetXY "left" w h tw th m = (m, max m ((h - th).tdiv 2)) ∧
    targetXY "right" w h tw th m = (max m (w - tw - m), max m ((h - th).tdiv 2)) ∧
    targetXY "center" w h tw th m = (max m ((w - tw).tdiv 2), max m ((h - th).tdiv 2)) ∧
    targetXY "bottom" 1920 1080 400 100 24 = (760, 956) :=
  ⟨rfl, rfl, rfl, rfl, rfl, by decide⟩

/-- C3: the slide-in position function (duration floored at 1/20 = 0.05)
returns the start point for every `t ≤ 0`, the target exactly for every
`t ≥ duration`, the exact midpoint of start and target at `duration / 2`,
and `start + (target - start) * (t / duration)` strictly in between. -/
theorem slide_in_position_spec (sx sy tx ty : Int) (dReq d : ℚ)
    (hd : d = max (1/20) dReq) :
    (∀ t : ℚ, t ≤ 0 → slideInPositionFn sx sy tx ty dReq t = ((sx : ℚ), (sy : ℚ))) ∧
    (∀ t : ℚ, d ≤ t → slideInPositionFn sx sy tx ty dReq t = ((tx : ℚ), (ty : ℚ))) ∧
    slideInPositionFn sx sy tx ty dReq (d / 2) =
      (((sx : ℚ) + (tx : ℚ)) / 2, ((sy : ℚ) + (ty : ℚ)) / 2) ∧
    (∀ t : ℚ, 0 < t → t < d →
      slideInPositionFn sx sy tx ty dReq t =
        ((sx : ℚ) + ((tx : ℚ) - (sx : ℚ)) * (t / d),
         (sy : ℚ) + ((ty : ℚ) - (sy : ℚ)) * (t / d))) := by
  subst hd
  have hdpos : (0 : ℚ) < max (1/20) dReq :=
    lt_of_lt_of_le (by norm_num) (le_max_left _ _)
  refine ⟨?_, ?_, ?_, ?_⟩
  · intro t ht
    simp [slideInPositionFn, ht]
  · intro t ht
    have htpos : (0 : ℚ) < t := lt_of_lt_of_le hdpos ht
    simp only [slideInPositionFn]
    rw [if_neg (not_le.mpr htpos), if_pos ht]
  · have h1 : (0 : ℚ) < max (1/20) dReq / 2 := by positivity
    have h2 : max (1/20 : ℚ) dReq / 2 < max (1/20) dReq := by linarith
    have hne : max (1/20 : ℚ) dReq ≠ 0 := ne_of_gt hdpos
    simp only [slideInPositionFn, if_neg (not_le.mpr h1), if_neg (not_le.mpr h2)]
    rw [Prod.mk.injEq]
    constructor <;> (field_simp; ring)
  · intro t ht1 ht2
    simp only [slideInPositionFn, if_neg (not_le.mpr ht1), if_neg (not_le.mpr ht2)]

/-- Witness for `slide_in_position_spec` at start (0,0), target (10,20),
requested duration 1 (so the floored duration is also 1). -/
theorem slide_in_position_spec_witness :
    slideInPositionFn 0 0 10 20 1 (-1) = (0, 0) ∧
    slideInPositionFn 0 0 10 20 1 2 = (10, 20) ∧
    slideInPositionFn 0 0 10 20 1 (1 / 2) = (5, 10) ∧
    slideInPositionFn 0 0 10 20 1 (1 / 4) = (5/2, 5) := by
  obtain ⟨h1, h2, h3, h4⟩ :=
    slide_in_position_spec 0 0 10 20 1 1 (by norm_num)
  refine ⟨?_, ?_, ?_, ?_⟩
  · simpa using h1 (-1) (by norm_num)
  · simpa using h2 2 (by norm_num)
  · have h := h3
    norm_num at h
    exact h
  · have h := h4 (1/4) (by norm_num) (by norm_num)
    norm_num at h
    exact h

/-- C8: the animation start point keeps the target's cross-axis coordinate
and moves the main-axis coordinate to the chosen origin edge, with 1 pixel
(`edge = 1`) of the layer still reaching the frame: from the top it is
`(target_x, -measure_h + 1)` (layer just above the frame), from the left
`(-measure_w + 1, target_y)`, from the right `(clip_w - 1, target_y)`, and
from the bottom `(target_x, clip_h - 1)` (layer just below the frame). -/
theorem anim_start_per_edge (tx ty clipW clipH mw mh : Int) :
    animStartXY "top" tx ty clipW clipH mw mh = (tx, -mh + 1) ∧
    animStartXY "left" tx ty clipW clipH mw mh = (-mw + 1, ty) ∧
    animStartXY "right" tx ty clipW clipH mw mh = (clipW - 1, ty) ∧
    animStartXY "bottom" tx ty clipW clipH mw mh = (tx, clipH - 1) :=
  ⟨rfl, rfl, rfl, rfl⟩

/-- C9: for every placement string (known or not) and all dimensions, the
standalone vertical helper `_y_for_position` agrees with the y-component of
the full resolver `_target_xy`. -/
theorem y_for_position_eq_target_xy (s : String) (w h tw th m : Int) :
    yForPosition s h th m = (targetXY s w h tw th m).2 := by
  by_cases h1 : s = "bottom"
  · simp [yForPosition, targetXY, h1]
  · by_cases h2 : s = "top"
    · simp [yForPosition, targetXY, h2]
    · by_cases h3 : s = "left"
      · simp [yForPosition, targetXY, h3]
      · by_cases h4 : s = "right"
        · simp [yForPosition, targetXY, h4]
        · simp [yForPosition, targetXY, h1, h2, h3, h4]

lemma clamp_xy_bounds_all (x y : ℚ) (cw ch bw bh : Int) :
    (-(max 1 cw) + 1 ≤ max 1 bw - 1) ∧ (-(max 1 ch) + 1 ≤ max 1 bh - 1) ∧
    ((-(max 1 cw) + 1 : Int) : ℚ) ≤ (clamp_xy bw bh x y cw ch 1).1 ∧
    (clamp_xy bw bh x y cw ch 1).1 ≤ ((max 1 bw - 1 : Int) : ℚ) ∧
    ((-(max 1 ch) + 1 : Int) : ℚ) ≤ (clamp_xy bw bh x y cw ch 1).2 ∧
    (clamp_xy bw bh x y cw ch 1).2 ≤ ((max 1 bh - 1 : Int) : ℚ) := by
  have hcw : (1 : Int) ≤ max 1 cw := le_max_left _ _
  have hch : (1 : Int) ≤ max 1 ch := le_max_left _ _
  have hbw : (1 : Int) ≤ max 1 bw := le_max_left _ _
  have hbh : (1 : Int) ≤ max 1 bh := le_max_left _ _
  have hx : (-(max 1 cw) + 1 : Int) ≤ max 1 bw - 1 := by omega
  have hy : (-(max 1 ch) + 1 : Int) ≤ max 1 bh - 1 := by omega
  have hx' := clamp1D_mem x ((-(max 1 cw) + 1 : Int) : ℚ) ((max 1 bw - 1 : Int) : ℚ)
    (by exact_mod_cast hx)
  have hy' := clamp1D_mem y ((-(max 1 ch) + 1 : Int) : ℚ) ((max 1 bh - 1 : Int) : ℚ)
    (by exact_mod_cast hy)
  simp only [clamp_xy] at hx' hy' ⊢
  exact ⟨hx, hy, hx'.1, hx'.2, hy'.1, hy'.2⟩

/-- C10: `clamp_xy` is total and well defined on every input: the layer and
base dimensions are coerced to at least 1, the resulting clamp interval
`[-cw + 1, bw - 1]` (and likewise for y) is non-empty for edge 1, and the
returned point always lies within those bounds. -/
theorem clamp_xy_total_bounds (x y : ℚ) (cw ch bw bh : Int) :
    (-(max 1 cw) + 1 ≤ max 1 bw - 1) ∧ (-(max 1 ch) + 1 ≤ max 1 bh - 1) ∧
    ((-(max 1 cw) + 1 : Int) : ℚ) ≤ (clamp_xy bw bh x y cw ch 1).1 ∧
    (clamp_xy bw bh x y cw ch 1).1 ≤ ((max 1 bw - 1 : Int) : ℚ) ∧
    ((-(max 1 ch) + 1 : Int) : ℚ) ≤ (clamp_xy bw bh x y cw ch 1).2 ∧
    (clamp_xy bw bh x y cw ch 1).2 ≤ ((max 1 bh - 1 : Int) : ℚ) :=
  clamp_xy_bounds_all x y cw ch bw bh

lemma clamp_xy_bounds_pos (x y : ℚ) (cw ch bw bh : Int)
    (hcw : 1 ≤ cw) (hch : 1 ≤ ch) (hbw : 1 ≤ bw) (hbh : 1 ≤ bh) :
    ((-cw + 1 : Int) : ℚ) ≤ (clamp_xy bw bh x y cw ch 1).1 ∧
    (clamp_xy bw bh x y cw ch 1).1 ≤ ((bw - 1 : Int) : ℚ) ∧
    ((-ch + 1 : Int) : ℚ) ≤ (clamp_xy bw bh x y cw ch 1).2 ∧
    (clamp_xy bw bh x y cw ch 1).2 ≤ ((bh - 1 : Int) : ℚ) := by
  have h := clamp_xy_bounds_all x y cw ch bw bh
  rw [max_eq_right hcw, max_eq_right hch, max_eq_right hbw, max_eq_right hbh] at h
  exact ⟨h.2.2.1, h.2.2.2.1, h.2.2.2.2.1, h.2.2.2.2.2⟩

lemma overlap_of_bounds (p : ℚ) (w fw : Int) (hw : 1 ≤ w) (hfw : 1 ≤ fw)
    (hlo : ((-w + 1 : Int) : ℚ) ≤ p) (hhi : p ≤ ((fw - 1 : Int) : ℚ)) :
    1 ≤ overlapLen p w fw := by
  unfold overlapLen
  push_cast at hlo hhi
  have hw' : (1 : ℚ) ≤ (w : ℚ) := by exact_mod_cast hw
  have hfw' : (1 : ℚ) ≤ (fw : ℚ) := by exact_mod_cast hfw
  have h1 : (1 : ℚ) ≤ min (p + (w : ℚ)) (fw : ℚ) - max p 0 := by
    rcases le_or_lt 0 p with hp | hp
    · rw [max_eq_left hp]
      have hm : p + 1 ≤ min (p + (w : ℚ)) (fw : ℚ) :=
        le_min (by linarith) (by linarith)
      linarith
    · rw [max_eq_right (le_of_lt hp)]
      have hm : (1 : ℚ) ≤ min (p + (w : ℚ)) (fw : ℚ) :=
        le_min (by linarith) (by linarith)
      linarith
  exact le_trans h1 (le_max_right _ _)

/-- C1: for a frame of positive size and positive measured clip sizes, every
layer produced by `_make_styled_layers`, at every sampled time `t`, has its
clamped position inside `[-w + 1, baseW - 1] × [-h + 1, baseH - 1]` (with
`w`, `h` the layer's own size), so at least one pixel of the layer's bounding
box overlaps the base frame — regardless of where the unclamped position
function points. -/
theorem styled_layers_in_frame (baseW baseH txtW txtH shadowW shadowH : Int)
    (posFn : ℚ → ℚ × ℚ) (layerStart durationReq : ℚ)
    (shadowEnabled : Bool) (shadowOpacity : ℚ) (shadowDx shadowDy : Int)
    (boxEnabled : Bool) (boxOpacity : ℚ) (boxPadding : Int)
    (hbw : 1 ≤ baseW) (hbh : 1 ≤ baseH) (htw : 1 ≤ txtW) (hth : 1 ≤ txtH)
    (hsw : 1 ≤ shadowW) (hsh : 1 ≤ shadowH) :
    ∀ L ∈ makeStyledLayers baseW baseH txtW txtH shadowW shadowH posFn
        layerStart durationReq shadowEnabled shadowOpacity shadowDx shadowDy
        boxEnabled boxOpacity boxPadding,
      ∀ t : ℚ,
        ((-L.w + 1 : Int) : ℚ) ≤ (L.posFn t).1 ∧
        (L.posFn t).1 ≤ ((baseW - 1 : Int) : ℚ) ∧
        ((-L.h + 1 : Int) : ℚ) ≤ (L.posFn t).2 ∧
        (L.posFn t).2 ≤ ((baseH - 1 : Int) : ℚ) ∧
        1 ≤ overlapLen (L.posFn t).1 L.w baseW ∧
        1 ≤ overlapLen (L.posFn t).2 L.h baseH := by
  have key : ∀ (x y : ℚ) (cw ch : Int), 1 ≤ cw → 1 ≤ ch →
      ((-cw + 1 : Int) : ℚ) ≤ (clamp_xy baseW baseH x y cw ch 1).1 ∧
      (clamp_xy baseW baseH x y cw ch 1).1 ≤ ((baseW - 1 : Int) : ℚ) ∧
      ((-ch + 1 : Int) : ℚ) ≤ (clamp_xy baseW baseH x y cw ch 1).2 ∧
      (clamp_xy baseW baseH x y cw ch 1).2 ≤ ((baseH - 1 : Int) : ℚ) ∧
      1 ≤ overlapLen (clamp_xy baseW baseH x y cw ch 1).1 cw baseW ∧
      1 ≤ overlapLen (clamp_xy baseW baseH x y cw ch 1).2 ch baseH := by
    intro x y cw ch hcw hch
    obtain ⟨b1, b2, b3, b4⟩ := clamp_xy_bounds_pos x y cw ch baseW baseH hcw hch hbw hbh
    exact ⟨b1, b2, b3, b4, overlap_of_bounds _ _ _ hcw hbw b1 b2,
      overlap_of_bounds _ _ _ hch hbh b3 b4⟩
  intro L hL t
  simp only [makeStyledLayers, List.mem_append, List.mem_singleton] at hL
  rcases hL with (h | h) | h
  · split at h
    · rw [List.mem_singleton] at h
      subst h
      exact key _ _ _ _ (le_max_left _ _) (le_max_left _ _)
    · simp at h
  · split at h
    · rw [List.mem_singleton] at h
      subst h
      exact key _ _ _ _ hsw hsh
    · simp at h
  · subst h
    exact key _ _ _ _ htw hth

/-- Witness for `styled_layers_in_frame`: the box layer of `witnessLayers`
(whose position function points far outside the 100×50 frame) is clamped into
bounds and keeps at least one pixel of overlap at time 7. -/
theorem styled_layers_in_frame_witness :
    ((-witnessLayer0.w + 1 : Int) : ℚ) ≤ (witnessLayer0.posFn 7).1 ∧
    (witnessLayer0.posFn 7).1 ≤ ((100 - 1 : Int) : ℚ) ∧
    ((-witnessLayer0.h + 1 : Int) : ℚ) ≤ (witnessLayer0.posFn 7).2 ∧
    (witnessLayer0.posFn 7).2 ≤ ((50 - 1 : Int) : ℚ) ∧
    1 ≤ overlapLen (witnessLayer0.posFn 7).1 witnessLayer0.w 100 ∧
    1 ≤ overlapLen (witnessLayer0.posFn 7).2 witnessLayer0.h 50 :=
  styled_layers_in_frame 100 50 10 5 10 5 (fun _ => ((200 : ℚ), (-300 : ℚ)))
    0 1 true 1 2 2 true 1 4
    (by decide) (by decide) (by decide) (by decide) (by decide) (by decide)
    witnessLayer0 (List.get_mem _ _ _) 7

/-- C5 (amended): for positive layer and frame dimensions, clamping an
already-in-range `(x, y)` returns it unchanged, and clamping a position at
which the layer would be fully off-screen (overlap area zero) moves it so at
least one pixel of the layer overlaps the frame — the overlap need not be
exactly one pixel. -/
theorem clamp_xy_idem_and_overlap (cw ch bw bh : Int)
    (hcw : 1 ≤ cw) (hch : 1 ≤ ch) (hbw : 1 ≤ bw) (hbh : 1 ≤ bh) :
    (∀ x y : ℚ, ((-cw + 1 : Int) : ℚ) ≤ x → x ≤ ((bw - 1 : Int) : ℚ) →
      ((-ch + 1 : Int) : ℚ) ≤ y → y ≤ ((bh - 1 : Int) : ℚ) →
      clamp_xy bw bh x y cw ch 1 = (x, y)) ∧
    (∀ x y : ℚ, overlapArea x y cw ch bw bh = 0 →
      1 ≤ overlapArea (clamp_xy bw bh x y cw ch 1).1 (clamp_xy bw bh x y cw ch 1).2
            cw ch bw bh) := by
  constructor
  · intro x y h1 h2 h3 h4
    simp only [clamp_xy]
    rw [max_eq_right hcw, max_eq_right hch, max_eq_right hbw, max_eq_right hbh,
      Prod.mk.injEq]
    exact ⟨clamp1D_id x _ _ h1 h2, clamp1D_id y _ _ h3 h4⟩
  · intro x y _hzero
    obtain ⟨b1, b2, b3, b4⟩ := clamp_xy_bounds_pos x y cw ch bw bh hcw hch hbw hbh
    have o1 := overlap_of_bounds _ _ _ hcw hbw b1 b2
    have o2 := overlap_of_bounds _ _ _ hch hbh b3 b4
    unfold overlapArea
    calc (1 : ℚ) = 1 * 1 := by norm_num
      _ ≤ _ := mul_le_mul o1 o2 zero_le_one (le_trans zero_le_one o1)

/-- Counterexample to C5 as stated: a 10×5 layer at `(5, -1000)` against a
100×50 frame is fully off-screen (overlap area 0), yet the clamped position
`(5, -4)` overlaps the frame in 10 pixels, not exactly 1: the x coordinate was
already in range, so the whole bottom row of the layer stays visible. -/
theorem clamp_exactly_one_pixel_cex :
    overlapArea 5 (-1000) 10 5 100 50 = 0 ∧
    clamp_xy 100 50 5 (-1000) 10 5 1 = (5, -4) ∧
    overlapArea (clamp_xy 100 50 5 (-1000) 10 5 1).1
      (clamp_xy 100 50 5 (-1000) 10 5 1).2 10 5 100 50 = 10 := by
  refine ⟨?_, ?_, ?_⟩ <;> norm_num [overlapArea, overlapLen, clamp_xy]

/-- Witness for `clamp_xy_idem_and_overlap` with a 10×5 layer and a 100×50
frame: the in-range point `(3, 4)` is returned unchanged, and the fully
off-screen point `(-1000, -1000)` is clamped to an overlapping position. -/
theorem clamp_xy_idem_and_overlap_witness :
    clamp_xy 100 50 3 4 10 5 1 = (3, 4) ∧
    1 ≤ overlapArea (clamp_xy 100 50 (-1000) (-1000) 10 5 1).1
          (clamp_xy 100 50 (-1000) (-1000) 10 5 1).2 10 5 100 50 := by
  obtain ⟨h1, h2⟩ :=
    clamp_xy_idem_and_overlap 10 5 100 50 (by decide) (by decide) (by decide) (by decide)
  exact ⟨h1 3 4 (by norm_num) (by norm_num) (by norm_num) (by norm_num),
    h2 (-1000) (-1000) (by norm_num [overlapArea, overlapLen])⟩

/-- C4 (amended): the layer list built by `_make_styled_layers` is always
`[box?, shadow?, main_text]` — it ends in exactly one main-text layer, the
box layer is present iff the box is enabled AND its opacity is positive, the
shadow layer is present iff the shadow is enabled AND its opacity is
positive, and box before shadow before text is the fixed order. -/
theorem styled_layers_kind_structure (baseW baseH txtW txtH shadowW shadowH : Int)
    (posFn : ℚ → ℚ × ℚ) (layerStart durationReq : ℚ)
    (shadowEnabled : Bool) (shadowOpacity : ℚ) (shadowDx shadowDy : Int)
    (boxEnabled : Bool) (boxOpacity : ℚ) (boxPadding : Int) :
    (makeStyledLayers baseW baseH txtW txtH shadowW shadowH posFn
        layerStart durationReq shadowEnabled shadowOpacity shadowDx shadowDy
        boxEnabled boxOpacity boxPadding).map OverlayLayer.kind =
      (if boxEnabled = true ∧ 0 < boxOpacity then [LayerKind.box] else []) ++
      (if shadowEnabled = true ∧ 0 < shadowOpacity then [LayerKind.shadow] else []) ++
      [LayerKind.text] := by
  simp only [makeStyledLayers, List.map_append, apply_ite (List.map OverlayLayer.kind),
    List.map_cons, List.map_nil, Bool.and_eq_true, decide_eq_true_eq]

/-- Counterexample to C4 as stated: with the box enabled but its opacity 0
(and the shadow enabled with opacity 1), the builder emits no box layer at
all — presence is not equivalent to the box being enabled, and the list is
not `[box, shadow, text]`. -/
theorem styled_layers_box_iff_cex :
    (makeStyledLayers 100 50 10 5 10 5 (fun _ => (0, 0)) 0 1
        true 1 2 2 true 0 4).map OverlayLayer.kind = [LayerKind.shadow, LayerKind.text] ∧
    LayerKind.box ∉ (makeStyledLayers 100 50 10 5 10 5 (fun _ => (0, 0)) 0 1
        true 1 2 2 true 0 4).map OverlayLayer.kind :=
  ⟨rfl, by decide⟩

/-- C6 (amended): `_resolve_font_style` returns a truthy uploaded custom font
path unconditionally; on Windows it returns the mapped path under
`C:\Windows\Fonts` when that file exists and otherwise falls back to the
family's bare regular filename (without an existence check, so not the empty
string); on non-Windows it returns the first existing candidate of the
priority list — bundled `desired` names (when the bundled directory exists)
first, then the DejaVu/Liberation system candidates — or the empty string
when none exists; with both `arialbd.ttf` and `Arial Bold.ttf` present in
the bundled directory, bold selection returns `arialbd.ttf`. -/
theorem resolve_font_style_spec (fsExists : String → Bool)
    (bundledFontsDirExists : Bool) (repoDir fontKey : String) (bold italic : Bool) :
    (∀ (isWindows : Bool) (p : String), p ≠ "" →
      resolveFontStyle isWindows fsExists bundledFontsDirExists repoDir fontKey
        bold italic (some p) = p) ∧
    resolveFontStyle false fsExists bundledFontsDirExists repoDir fontKey bold italic none =
      (((if bundledFontsDirExists then
            (desiredBundledNames fontKey bold italic
              (fontFilenameFor (variantsFor fontKey) bold italic)).map
              (fun n => (repoDir ++ "/fonts") ++ "/" ++ n)
          else []) ++
         (dejavuCandidates fontKey ++ liberationCandidates)).find? fsExists).getD "" ∧
    resolveFontStyle true fsExists bundledFontsDirExists repoDir fontKey bold italic none =
      (if fsExists ("C:\\Windows\\Fonts\\" ++ fontFilenameFor (variantsFor fontKey) bold italic)
       then "C:\\Windows\\Fonts\\" ++ fontFilenameFor (variantsFor fontKey) bold italic
       else (variantsFor fontKey).regular) ∧
    resolveFontStyle false
      (fun p => p = "/repo/fonts/arialbd.ttf" ∨ p = "/repo/fonts/Arial Bold.ttf")
      true "/repo" "Arial" true false none = "/repo/fonts/arialbd.ttf" := by
  refine ⟨?_, ?_, ?_, ?_⟩
  · intro isWindows p hp
    simp [resolveFontStyle, hp]
  · simp only [resolveFontStyle, Option.getD_none, ne_eq, not_true_eq_false, if_false]
    cases hfind : (((if bundledFontsDirExists then
        (desiredBundledNames fontKey bold italic
          (fontFilenameFor (variantsFor fontKey) bold italic)).map
          (fun n => (repoDir ++ "/fonts") ++ "/" ++ n)
      else []) ++
      (dejavuCandidates fontKey ++ liberationCandidates)).find? fsExists) <;>
      simp [hfind]
  · rfl
  · rfl

/-- Counterexample to C6 as stated: on Windows, with no custom font and a
filesystem on which no candidate exists, the function returns the bare
filename `arial.ttf` — a non-empty string naming a file that does not exist —
instead of the empty string. -/
theorem resolve_font_windows_fallback_cex :
    resolveFontStyle true (fun _ => false) false "/repo" "Arial" false false none
      = "arial.ttf" ∧
    "arial.ttf" ≠ "" ∧
    (fun _ => false) "arial.ttf" = false :=
  ⟨rfl, by decide, rfl⟩

/-- Witness for `resolve_font_style_spec`: an uploaded custom font path is
returned as is. -/
theorem resolve_font_style_spec_witness :
    resolveFontStyle false (fun _ => false) false "/repo" "Arial" false false
      (some "/uploads/custom.ttf") = "/uploads/custom.ttf" :=
  (resolve_font_style_spec (fun _ => false) false "/repo" "Arial" false false).1
    false "/uploads/custom.ttf" (by decide)

lemma processVideoClipBody_ok_cases (env : RenderEnv) (useCaptions : Bool)
    (overlayText : Option String) (b : Bool) (m : String)
    (h : processVideoClipBody env useCaptions overlayText = Except.ok (b, m)) :
    (b = true ∧ m = "") ∨ b = false := by
  unfold processVideoClipBody at h
  repeat' split at h
  all_goals simp_all

/-- C7: the embedded `process_video_clip` never propagates an exception: it
always returns a `(success, message)` pair that is either `(true, "")` or
flagged `false`; when caption generation is requested and the loaded clip has
no audio track it returns failure with the missing-audio message; when manual
mode is used with falsy (absent or empty) overlay text it returns failure
with the empty-text message; and any exception raised by the body is caught
and returned as `(false, message-string)` (a `FileNotFoundError` message is
additionally decorated with the ffmpeg diagnostic).  Each external action is
sampled exactly once on its control path, so no retry is performed. -/
theorem process_video_clip_failures (env : RenderEnv) (useCaptions : Bool)
    (overlayText : Option String) :
    (processVideoClip env useCaptions overlayText = (true, "") ∨
      (processVideoClip env useCaptions overlayText).1 = false) ∧
    (∀ c, env.loadClip = Except.ok c → useCaptions = true → c.hasAudio = false →
      processVideoClip env useCaptions overlayText =
        (false, "No audio track found to generate captions.")) ∧
    (∀ c, env.loadClip = Except.ok c → useCaptions = false → overlayText.getD "" = "" →
      processVideoClip env useCaptions overlayText = (false, "Overlay text is empty.")) ∧
    (∀ e, processVideoClipBody env useCaptions overlayText = Except.error e →
      processVideoClip env useCaptions overlayText =
        (false, renderFailureMessage env e)) := by
  refine ⟨?_, ?_, ?_, ?_⟩
  · rcases hb : processVideoClipBody env useCaptions overlayText with e | r
    · right
      unfold processVideoClip
      rw [hb]
    · rcases r with ⟨b, m⟩
      rcases processVideoClipBody_ok_cases env useCaptions overlayText b m hb with
        ⟨rfl, rfl⟩ | rfl
      · left
        unfold processVideoClip
        rw [hb]
      · right
        unfold processVideoClip
        rw [hb]
  · intro c hc hU hA
    subst hU
    unfold processVideoClip processVideoClipBody
    rw [hc]
    simp [hA]
  · intro c hc hU hT
    subst hU
    unfold processVideoClip processVideoClipBody
    rw [hc]
    simp [hT]
  · intro e he
    unfold processVideoClip
    rw [he]

/-- Witness for `process_video_clip_failures`: caption mode on a clip with no
audio track reports the missing audio as a non-fatal failure. -/
theorem process_video_clip_failures_witness :
    processVideoClip
      { loadClip := Except.ok { duration := 10, w := 100, h := 50, hasAudio := false },
        writeAudioFile := Except.ok (), transcribeSegments := Except.ok [],
        measureText := fun _ => (10, 5), writeVideoFile := Except.ok (),
        ffmpegExePath := Except.ok "/opt/ffmpeg" } true (some "hello")
      = (false, "No audio track found to generate captions.") :=
  (process_video_clip_failures _ true (some "hello")).2.1
    { duration := 10, w := 100, h := 50, hasAudio := false } rfl rfl rfl

end Cubbon
